import Mathlib

/-!
Verification of the RunwayML image/video proxy (Cloudflare Pages function
`functions/ai.js`, an earlier unnamed variant of the same handler, and the
React client `src/App.jsx`).

The JavaScript is embedded shallowly:
* Strings stay `String`; JS `undefined`/`null` and absent fields become
  `Option`; JS truthiness of a string value (`undefined`, `null` and `""`
  are falsy) is `jsTruthyStr` / `jsOrStr`.
* `parseInt(s, 10)` becomes `jsParseInt`, returning `none` for `NaN`.
* `Math.random()` is modelled as an arbitrary rational `r` with
  `0 ≤ r < 1` supplied as an explicit parameter `rng`; the seed expression
  `Math.floor(Math.random() * 4294967295)` becomes `seedOf`.
* Each handler makes at most one upstream `fetch` per request, so the
  upstream API is an oracle record (`Upstream`) holding the response each
  endpoint would give; the calls actually issued are collected in an
  explicit trace (`HandlerResult.calls`), KV writes in `kvPuts`, and
  deletions scheduled through `context.waitUntil` (fire-and-forget, not
  awaited before responding) in `deferredDeletes`.
* Every `throw` inside the handlers' `try` block reaches the single
  top-level `catch`, which returns `jsonResponse({success:false, error},
  500)`; the embedding therefore returns that error result directly at
  each throw site, with the upstream calls already made kept in the trace.
* The KV store holds JSON records `{type: ...}`; values are modelled
  structurally as `TaskInfo` (a `put` stores what a `get` with
  `{type:'json'}` parses back).
* UI display strings of the client (`setStatus` text, `toFixed`
  formatting) are not modelled; all state the polling protocol depends on
  is.
-/

/-- JS truthiness of a possibly-absent string: `undefined`, `null` and the
empty string are falsy, every other string truthy. -/
def jsTruthyStr : Option String → Bool
  | none => false
  | some s => ¬ s = ""

/-- JS `v || d` for a possibly-absent string `v`: the default `d` is used
when `v` is absent or empty. -/
def jsOrStr (v : Option String) (d : String) : String :=
  match v with
  | some s => if s = "" then d else s
  | none => d

/-- Numeric value of a maximal leading run of decimal digits; `none` when
there is no leading digit. -/
def digitsVal (cs : List Char) : Option ℕ :=
  let ds := cs.takeWhile Char.isDigit
  if ds = [] then none
  else some (ds.foldl (fun a c => a * 10 + (c.toNat - 48)) 0)

/-- JS `parseInt(s, 10)`: skip leading whitespace, optional sign, then the
longest prefix of decimal digits; `none` models `NaN`. -/
def jsParseInt (s : String) : Option ℤ :=
  let cs := s.toList.dropWhile (fun c => c = ' ' ∨ c = '\t' ∨ c = '\n' ∨ c = '\r')
  match cs with
  | '-' :: rest => (digitsVal rest).map (fun n => -(n : ℤ))
  | '+' :: rest => (digitsVal rest).map (fun n => (n : ℤ))
  | _ => (digitsVal cs).map (fun n => (n : ℤ))

/-- Substring test over the character lists, modelling JS
`String.prototype.includes`. -/
def strContains (s pat : String) : Bool :=
  go pat.toList s.toList
where
  go (p : List Char) : List Char → Bool
    | [] => p.isEmpty
    | c :: rest => p.isPrefixOf (c :: rest) || go p rest

/-- Base64 alphabet used by `btoa`. -/
def b64Alphabet : List Char :=
  "ABCDEFGHIJKLMNOPQRSTUVWXYZabcdefghijklmnopqrstuvwxyz0123456789+/".toList

/-- Character of the base64 alphabet at index `n`. -/
def b64c (n : ℕ) : Char := b64Alphabet.getD n '?'

/-- JS `btoa` applied to the binary string built from a byte array
(`String.fromCharCode` over a `Uint8Array`): standard base64 with `=`
padding. -/
def btoa : List ℕ → String
  | [] => ""
  | [a] =>
    let x := a % 256
    String.mk [b64c (x / 4), b64c (x % 4 * 16), '=', '=']
  | [a, b] =>
    let x := a % 256
    let y := b % 256
    String.mk [b64c (x / 4), b64c (x % 4 * 16 + y / 16), b64c (y % 16 * 4), '=']
  | a :: b :: c :: rest =>
    let x := a % 256
    let y := b % 256
    let z := c % 256
    String.mk [b64c (x / 4), b64c (x % 4 * 16 + y / 16), b64c (y % 16 * 4 + z / 64),
      b64c (z % 64)] ++ btoa rest

/-- Seed sent with every submission: `Math.floor(Math.random() * 4294967295)`
with `Math.random()` modelled as a rational in `[0, 1)`. -/
def seedOf (r : ℚ) : ℤ := Int.floor (r * 4294967295)

/-- Uploaded file as the handler sees it: `name`, MIME `type`, and the raw
bytes of its `arrayBuffer`. -/
structure File' where
  name : String
  mime : String
  bytes : List ℕ
deriving DecidableEq

/-- Fields of the multipart form body read via `formData.get`; `none` is an
absent field. -/
structure FormData' where
  prompt : Option String
  image : Option File'
  duration : Option String
  ratio : Option String
deriving DecidableEq

/-- Fields of the parsed JSON request body the handlers destructure. -/
structure JsonBody where
  action : Option String
  prompt : Option String
  ratio : Option String
  videoPrompt : Option String
  imageUrl : Option String
  duration : Option String
  taskId : Option String
deriving DecidableEq

/-- Incoming request: method, `content-type` header (absent modelled as
`""`, matching the `|| ''` in the source), and the body under either
parse. -/
structure Request' where
  method : String
  contentType : String
  form : FormData'
  jsonBody : JsonBody
deriving DecidableEq

/-- Parsed KV record `{type: ...}` stored per task id. -/
structure TaskInfo where
  type : Option String
deriving DecidableEq

/-- Environment bindings: the `RUNWAYML_API_KEY` secret and the optional
`TASK_INFO_KV` store (modelled as an association list when bound). -/
structure Env' where
  apiKey : Option String
  kv : Option (List (String × TaskInfo))
deriving DecidableEq

/-- KV `get`: first record stored under the key, if any. -/
def kvGet (kv : List (String × TaskInfo)) (k : String) : Option TaskInfo :=
  (kv.find? (fun e => e.1 == k)).map (fun e => e.2)

/-- JSON payload the handlers serialize; absent JSON fields are `none`
(`JSON.stringify` drops `undefined` properties). -/
structure Payload where
  success : Bool
  error : Option String := none
  taskId : Option String := none
  status : Option String := none
  progress : Option ℚ := none
  imageUrl : Option String := none
  videoUrl : Option String := none
deriving DecidableEq

/-- Response body: `null` (preflight), plain text, or a JSON payload. -/
inductive RespBody
  | empty
  | text (s : String)
  | json (p : Payload)
deriving DecidableEq

/-- HTTP response: status code, body, and the explicitly set headers. -/
structure Resp where
  status : ℕ
  body : RespBody
  headers : List (String × String)
deriving DecidableEq

/-- Headers set by the `jsonResponse` helper. -/
def stdJsonHeaders : List (String × String) :=
  [("Content-Type", "application/json"), ("Access-Control-Allow-Origin", "*")]

/-- The `jsonResponse(data, status)` helper shared by both handler files. -/
def jsonResponse (data : Payload) (status : ℕ) : Resp :=
  { status := status, body := RespBody.json data, headers := stdJsonHeaders }

/-- CORS preflight response returned for `OPTIONS` (identical in both
handler files). -/
def preflightResp : Resp :=
  { status := 200
    body := RespBody.empty
    headers := [("Access-Control-Allow-Origin", "*"),
      ("Access-Control-Allow-Methods", "POST, OPTIONS"),
      ("Access-Control-Allow-Headers", "Content-Type, X-Runway-Version")] }

/-- Plain-text response for a method other than `POST`/`OPTIONS`
(identical in both handler files). -/
def methodNotAllowedResp : Resp :=
  { status := 405, body := RespBody.text "Method not allowed", headers := [] }

/-- Response the upstream submit endpoints (`text_to_image`,
`image_to_video`) would give: HTTP `ok` flag and status code, plus the
parsed body's `error`, `id` and `status` fields. -/
structure UpstreamSubmit where
  ok : Bool
  statusCode : ℕ
  errorMsg : Option String
  id : String
  status : Option String
deriving DecidableEq

/-- Response the upstream `tasks/{id}` endpoint would give; `output` is the
output array (`[]` also covers an absent array: both make `output?.[0]`
and `output && output[0]` falsy). -/
structure UpstreamStatus where
  ok : Bool
  statusText : String
  errorMsg : Option String
  status : Option String
  progress : Option ℚ
  output : List String
deriving DecidableEq

/-- Oracle for the single upstream call a request can make. -/
structure Upstream where
  t2i : UpstreamSubmit
  i2v : UpstreamSubmit
  tasks : UpstreamStatus
deriving DecidableEq

/-- One upstream request issued by a handler, with the semantic fields of
its JSON body. -/
inductive UpstreamCall
  | text_to_image (model promptText : String) (ratio : String) (seed : ℤ)
  | text_to_image_i2i (model promptText promptImage : String) (ratio : String)
      (structureStrength : ℚ) (seed : ℤ)
  | image_to_video (model promptText promptImage : String) (seed : ℤ)
      (watermark : Bool) (duration : Option ℤ) (ratio : String)
  | task_status (taskId : String)
deriving DecidableEq

/-- Result of one handler invocation: the response plus the request's
effect trace. -/
structure HandlerResult where
  resp : Resp
  calls : List UpstreamCall := []
  kvPuts : List (String × TaskInfo) := []
  deferredDeletes : List String := []
deriving DecidableEq

namespace Ai

/-- Missing-credential message in `functions/ai.js`. -/
def apiKeyErrorMsg : String :=
  "CRITICAL FIX REQUIRED: Check Cloudflare project settings for API Key."

/-- Missing-credential response in `functions/ai.js`: a raw `new Response`
with a JSON string body but no headers set. -/
def missingKeyResp : Resp :=
  { status := 500
    body := RespBody.json { success := false, error := some apiKeyErrorMsg }
    headers := [] }

/-- Error result produced by the top-level `catch`:
`jsonResponse({success:false, error: message}, 500)`; `calls` keeps the
upstream requests made before the throw. -/
def errResult (calls : List UpstreamCall) (msg : String) : HandlerResult :=
  { resp := jsonResponse { success := false, error := some msg } 500, calls := calls }

/-- The `startImageToVideoJob` helper of `functions/ai.js`: posts to
`image_to_video`, throws on a non-ok upstream status, otherwise stores a
`{type:'video'}` KV record when the store is bound and returns
`{success, taskId, status}`. -/
def startImageToVideoJob (imageUrl promptText : String) (duration : Option ℤ)
    (ratio _originalName : String) (env : Env') (resp : UpstreamSubmit)
    (rng : ℚ) : HandlerResult :=
  let call := UpstreamCall.image_to_video "gen4_turbo" promptText imageUrl
    (seedOf rng) false duration ratio
  if resp.ok then
    { resp := jsonResponse { success := true, taskId := some resp.id, status := resp.status } 200
      calls := [call]
      kvPuts := match env.kv with
        | some _ => [(resp.id, { type := some "video" })]
        | none => [] }
  else
    errResult [call]
      (jsOrStr resp.errorMsg ("Runway I2V API returned status " ++ toString resp.statusCode))

/-- Multipart branch of `functions/ai.js`: read `prompt`, `image`,
`duration` (default `'5'`), `ratio` (default `'1280:720'`); throw when
prompt or image is missing; otherwise build the base64 data URL and start
the image-to-video job. -/
def handleMultipart (form : FormData') (env : Env') (up : Upstream)
    (rng : ℚ) : HandlerResult :=
  let duration := jsParseInt (jsOrStr form.duration "5")
  let ratio := jsOrStr form.ratio "1280:720"
  match form.prompt, form.image with
  | some p, some f =>
    if p = "" then errResult [] "Request is missing prompt or image file."
    else
      let imageDataUrl := "data:" ++ f.mime ++ ";base64," ++ btoa f.bytes
      startImageToVideoJob imageDataUrl p duration ratio f.name env up.i2v rng
  | _, _ => errResult [] "Request is missing prompt or image file."

/-- `generateImage` action of `functions/ai.js`: require a prompt, post to
`text_to_image`, throw on non-ok, store `{type:'image'}` when the KV store
is bound, and answer `{success, taskId}`. -/
def handleGenerateImage (body : JsonBody) (env : Env') (up : Upstream)
    (rng : ℚ) : HandlerResult :=
  if ¬ jsTruthyStr body.prompt then errResult [] "Image prompt is missing."
  else
    let call := UpstreamCall.text_to_image "gen4_image" (jsOrStr body.prompt "")
      (jsOrStr body.ratio "1280:720") (seedOf rng)
    if up.t2i.ok then
      { resp := jsonResponse { success := true, taskId := some up.t2i.id } 200
        calls := [call]
        kvPuts := match env.kv with
          | some _ => [(up.t2i.id, { type := some "image" })]
          | none => [] }
    else
      errResult [call]
        (jsOrStr up.t2i.errorMsg ("Runway T2I API error: " ++ toString up.t2i.statusCode))

/-- `startVideoFromUrl` action of `functions/ai.js`: require `videoPrompt`
and `imageUrl`, then start the image-to-video job with duration
`parseInt(duration || '5', 10)` and ratio defaulting to `'1280:720'`. -/
def handleStartVideoFromUrl (body : JsonBody) (env : Env') (up : Upstream)
    (rng : ℚ) : HandlerResult :=
  if ¬ jsTruthyStr body.videoPrompt ∨ ¬ jsTruthyStr body.imageUrl then
    errResult [] "Missing video prompt or image URL."
  else
    startImageToVideoJob (jsOrStr body.imageUrl "") (jsOrStr body.videoPrompt "")
      (jsParseInt (jsOrStr body.duration "5")) (jsOrStr body.ratio "1280:720")
      "generated-image" env up.i2v rng

/-- `status` action of `functions/ai.js`: require `taskId`, fetch
`tasks/{taskId}`, throw on non-ok; when the status is `SUCCEEDED` with a
truthy first output, resolve the task kind from KV (default `video`),
schedule the KV record's deletion through `waitUntil`, and answer with
`imageUrl` or `videoUrl` by kind; otherwise answer the progress payload. -/
def handleStatus (body : JsonBody) (env : Env') (up : Upstream) : HandlerResult :=
  if ¬ jsTruthyStr body.taskId then errResult [] "Invalid status check request."
  else
    let tid := jsOrStr body.taskId ""
    let call := UpstreamCall.task_status tid
    let d := up.tasks
    if ¬ d.ok then
      errResult [call] ("Status check failed: " ++ jsOrStr d.errorMsg d.statusText)
    else if d.status = some "SUCCEEDED" ∧ jsTruthyStr d.output.head? then
      let taskType :=
        match env.kv with
        | some kv =>
          match kvGet kv tid with
          | some info => jsOrStr info.type "video"
          | none => "video"
        | none => "video"
      let url := (d.output.head?).getD ""
      let payload : Payload :=
        if taskType = "image" then
          { success := true, status := d.status, progress := d.progress, imageUrl := some url }
        else
          { success := true, status := d.status, progress := d.progress, videoUrl := some url }
      { resp := jsonResponse payload 200
        calls := [call]
        deferredDeletes := match env.kv with
          | some _ => [tid]
          | none => [] }
    else
      { resp := jsonResponse { success := true, status := d.status, progress := d.progress } 200
        calls := [call] }

/-- JSON branch of `functions/ai.js`: the `switch (action)`. -/
def handleJson (body : JsonBody) (env : Env') (up : Upstream) (rng : ℚ) : HandlerResult :=
  if body.action = some "generateImage" then handleGenerateImage body env up rng
  else if body.action = some "startVideoFromUrl" then handleStartVideoFromUrl body env up rng
  else if body.action = some "status" then handleStatus body env up
  else errResult [] "Invalid action specified."

/-- `onRequest` of `functions/ai.js`: method dispatch, credential check,
then content-type dispatch inside the `try` block. -/
def onRequest (req : Request') (env : Env') (up : Upstream) (rng : ℚ) : HandlerResult :=
  if req.method = "OPTIONS" then { resp := preflightResp }
  else if req.method ≠ "POST" then { resp := methodNotAllowedResp }
  else if ¬ jsTruthyStr env.apiKey then { resp := missingKeyResp }
  else if strContains req.contentType "multipart/form-data" then
    handleMultipart req.form env up rng
  else if strContains req.contentType "application/json" then
    handleJson req.jsonBody env up rng
  else errResult [] "Invalid request content-type."

end Ai

namespace Part000

/-- Missing-credential message in the unnamed handler variant. -/
def apiKeyErrorMsg : String :=
  "CRITICAL FIX REQUIRED: Check Cloudflare project settings for RUNWAYML_API_KEY."

/-- Missing-credential response in the unnamed handler variant: built with
`jsonResponse`, so it does carry the JSON and CORS headers. -/
def missingKeyResp : Resp :=
  jsonResponse { success := false, error := some apiKeyErrorMsg } 500

/-- Error result produced by this variant's top-level `catch`. -/
def errResult (calls : List UpstreamCall) (msg : String) : HandlerResult :=
  { resp := jsonResponse { success := false, error := some msg } 500, calls := calls }

/-- Multipart branch of the unnamed variant: prompt and image required,
then a `text_to_image` call conditioned on the uploaded image
(`promptImage` data URL, `structure_strength: 0.85`). -/
def handleMultipart (form : FormData') (_env : Env') (up : Upstream)
    (rng : ℚ) : HandlerResult :=
  let ratio := jsOrStr form.ratio "1280:720"
  match form.prompt, form.image with
  | some p, some f =>
    if p = "" then errResult [] "Request is missing prompt or image file."
    else
      let imageDataUrl := "data:" ++ f.mime ++ ";base64," ++ btoa f.bytes
      let call := UpstreamCall.text_to_image_i2i "gen4_image" p imageDataUrl ratio
        (85 / 100) (seedOf rng)
      if up.t2i.ok then
        { resp := jsonResponse { success := true, taskId := some up.t2i.id } 200
          calls := [call] }
      else
        errResult [call]
          (jsOrStr up.t2i.errorMsg ("Runway API Error: " ++ toString up.t2i.statusCode))
  | _, _ => errResult [] "Request is missing prompt or image file."

/-- `status` action of the unnamed variant: on `SUCCEEDED` it answers
`imageUrl` when the first output is truthy and otherwise the explicit
failure payload `{success:false, status:'FAILED', error:'Task succeeded
but output was empty.'}`; any non-`SUCCEEDED` status gets the progress
payload. -/
def handleStatus (body : JsonBody) (up : Upstream) : HandlerResult :=
  if ¬ jsTruthyStr body.taskId then errResult [] "Task ID is missing for status check."
  else
    let tid := jsOrStr body.taskId ""
    let call := UpstreamCall.task_status tid
    let d := up.tasks
    if ¬ d.ok then
      errResult [call] ("Status check failed: " ++ jsOrStr d.errorMsg d.statusText)
    else if d.status = some "SUCCEEDED" then
      if jsTruthyStr d.output.head? then
        let payload : Payload :=
          { success := true, status := d.status, progress := d.progress,
            imageUrl := some ((d.output.head?).getD "") }
        { resp := jsonResponse payload 200, calls := [call] }
      else
        let payload : Payload :=
          { success := false, status := some "FAILED",
            error := some "Task succeeded but output was empty." }
        { resp := jsonResponse payload 200, calls := [call] }
    else
      { resp := jsonResponse { success := true, status := d.status, progress := d.progress } 200
        calls := [call] }

/-- JSON branch of the unnamed variant: only the `status` action exists. -/
def handleJson (body : JsonBody) (up : Upstream) : HandlerResult :=
  if body.action = some "status" then handleStatus body up
  else errResult [] "Invalid action specified."

/-- `onRequest` of the unnamed handler variant. -/
def onRequest (req : Request') (env : Env') (up : Upstream) (rng : ℚ) : HandlerResult :=
  if req.method = "OPTIONS" then { resp := preflightResp }
  else if req.method ≠ "POST" then { resp := methodNotAllowedResp }
  else if ¬ jsTruthyStr env.apiKey then { resp := missingKeyResp }
  else if strContains req.contentType "multipart/form-data" then
    handleMultipart req.form env up rng
  else if strContains req.contentType "application/json" then
    handleJson req.jsonBody up
  else errResult [] ("Invalid request content-type: " ++ req.contentType)

end Part000

namespace App

/-- What one poll of `/ai` yields to the client: the HTTP `ok` flag of the
response and the parsed JSON fields `pollForStatus` reads
(`failureReason` is `statusData.failure?.reason`). -/
structure StatusData where
  ok : Bool
  success : Bool
  status : Option String
  progress : Option ℚ
  imageUrl : Option String
  error : Option String
  failureReason : Option String
deriving DecidableEq

/-- Client state touched by `pollForStatus`: whether the interval timer is
still installed, how many status requests were issued, and the React state
the callback writes (`isGenerating`, progress percentage,
`modifiedImageUrl`, `error`). -/
structure PollState where
  timerActive : Bool
  requests : ℕ
  isGenerating : Bool
  progressPct : ℚ
  modifiedImageUrl : Option String
  errorMsg : Option String
deriving DecidableEq

/-- State right after `generateModifiedImage` received a task id and
called `pollForStatus(taskId)`: timer installed, nothing polled yet. -/
def initialPollState : PollState :=
  { timerActive := true, requests := 0, isGenerating := true, progressPct := 0
    modifiedImageUrl := none, errorMsg := none }

/-- The `catch` of the poll callback: record the error, stop generating,
clear the interval. -/
def pollFail (s : PollState) (msg : String) : PollState :=
  { s with errorMsg := some msg, isGenerating := false, timerActive := false }

/-- `(statusData.progress * 100) || 0`: an absent progress multiplies to
`NaN`, which `|| 0` turns into `0`. -/
def pctOf (d : StatusData) : ℚ :=
  match d.progress with
  | some p => p * 100
  | none => 0

/-- One firing of the 4000 ms interval callback in `pollForStatus`. A tick
with the timer already cleared does nothing; otherwise one status request
is issued and handled exactly as in the source: non-ok or unsuccessful
responses throw; `SUCCEEDED` clears the interval and either exposes the
image URL or throws when it is absent; `FAILED` throws; anything else
keeps polling with the progress display updated. -/
def tick (s : PollState) (d : StatusData) : PollState :=
  if ¬ s.timerActive then s
  else
    let s := { s with requests := s.requests + 1 }
    if ¬ d.ok ∨ ¬ d.success then
      pollFail s (jsOrStr d.error "Failed to check task status")
    else
      let s := { s with progressPct := pctOf d }
      if d.status = some "SUCCEEDED" then
        let s := { s with timerActive := false }
        if jsTruthyStr d.imageUrl then
          { s with modifiedImageUrl := d.imageUrl, isGenerating := false }
        else
          pollFail s "Task succeeded but no image URL was returned."
      else if d.status = some "FAILED" then
        pollFail s (jsOrStr d.failureReason "Image generation failed")
      else s

/-- A polling run: the interval fires once per element of `ds`, each
firing seeing the next server response. -/
def runPoll (ds : List StatusData) (s : PollState) : PollState :=
  ds.foldl tick s

/-- A non-terminal poll response: delivered and successful, with a status
that is neither `SUCCEEDED` nor `FAILED`. -/
def nonTerminal (d : StatusData) : Prop :=
  d.ok = true ∧ d.success = true ∧ d.status ≠ some "SUCCEEDED" ∧ d.status ≠ some "FAILED"

end App

/-- Empty multipart form, used for concrete JSON-request scenarios. -/
def formNone : FormData' :=
  { prompt := none, image := none, duration := none, ratio := none }

/-- JSON body with only an action and a task id set. -/
def statusBody (tid : String) : JsonBody :=
  { action := some "status", prompt := none, ratio := none, videoPrompt := none,
    imageUrl := none, duration := none, taskId := some tid }

/-- Concrete JSON `status` request for task `tid`. -/
def statusReq (tid : String) : Request' :=
  { method := "POST", contentType := "application/json", form := formNone,
    jsonBody := statusBody tid }

/-- Concrete successful submit-endpoint response issuing id `idv`. -/
def submitOk (idv : String) : UpstreamSubmit :=
  { ok := true, statusCode := 200, errorMsg := none, id := idv, status := some "PENDING" }

/-- Concrete `SUCCEEDED` task-status response with the given progress and
output array. -/
def tasksSucceeded (prog : Option ℚ) (out : List String) : UpstreamStatus :=
  { ok := true, statusText := "OK", errorMsg := none, status := some "SUCCEEDED",
    progress := prog, output := out }

/-- Upstream oracle built around a given task-status response. -/
def upWith (t : UpstreamStatus) : Upstream :=
  { t2i := submitOk "task-1", i2v := submitOk "task-1", tasks := t }

/-- Environment with the credential set and the KV store bound to the
given contents. -/
def envKV (kv : List (String × TaskInfo)) : Env' :=
  { apiKey := some "key", kv := some kv }

/-- JSON body with every field absent. -/
def emptyJsonBody : JsonBody :=
  { action := none, prompt := none, ratio := none, videoPrompt := none,
    imageUrl := none, duration := none, taskId := none }

/-- Envelope shape of a handler result: a JSON body carrying the
`jsonResponse` headers, with every failure payload holding an error
message. -/
def envelopeShape (r : HandlerResult) : Prop :=
  ∃ p : Payload, r.resp.body = RespBody.json p ∧ r.resp.headers = stdJsonHeaders ∧
    (p.success = false → p.error.isSome = true)

/-- Strengthened shape: additionally, failure payloads come with HTTP 500
and success payloads with HTTP 200. -/
def goodShape (r : HandlerResult) : Prop :=
  ∃ p : Payload, r.resp.body = RespBody.json p ∧ r.resp.headers = stdJsonHeaders ∧
    (p.success = false → p.error.isSome = true ∧ r.resp.status = 500) ∧
    (p.success = true → r.resp.status = 200)

/-- A malformed submission as the claim enumerates them: multipart with a
missing (or empty, hence falsy) prompt or missing image file; JSON
`generateImage` without a prompt; JSON `startVideoFromUrl` without a video
prompt or image URL. -/
def malformedSubmission (req : Request') : Prop :=
  (strContains req.contentType "multipart/form-data" = true ∧
    (jsTruthyStr req.form.prompt = false ∨ req.form.image = none)) ∨
  (strContains req.contentType "multipart/form-data" = false ∧
    strContains req.contentType "application/json" = true ∧
    ((req.jsonBody.action = some "generateImage" ∧
        jsTruthyStr req.jsonBody.prompt = false) ∨
     (req.jsonBody.action = some "startVideoFromUrl" ∧
        (jsTruthyStr req.jsonBody.videoPrompt = false ∨
         jsTruthyStr req.jsonBody.imageUrl = false))))

/-- A request outcome that issued no upstream call and answered a
`success:false` JSON body with HTTP 500. -/
def rejectedNoCall (r : HandlerResult) : Prop :=
  r.calls = [] ∧ ∃ p : Payload, r.resp.body = RespBody.json p ∧
    p.success = false ∧ r.resp.status = 500

@[simp] lemma jsTruthyStr_none : jsTruthyStr none = false := rfl

lemma jsTruthyStr_some_of_ne (s : String) (h : s ≠ "") : jsTruthyStr (some s) = true := by
  simp [jsTruthyStr, h]

@[simp] lemma jsOrStr_none (d : String) : jsOrStr none d = d := rfl

lemma jsOrStr_some_of_ne (s d : String) (h : s ≠ "") : jsOrStr (some s) d = s := by
  simp [jsOrStr, h]

lemma goodShape_envelope (r : HandlerResult) (h : goodShape r) : envelopeShape r := by
  obtain ⟨p, h1, h2, h3, _⟩ := h
  exact ⟨p, h1, h2, fun hf => (h3 hf).1⟩

lemma goodShape_ai_startImageToVideoJob (u p : String) (dur : Option ℤ)
    (ra na : String) (env : Env') (resp : UpstreamSubmit) (rng : ℚ) :
    goodShape (Ai.startImageToVideoJob u p dur ra na env resp rng) := by
  unfold Ai.startImageToVideoJob goodShape
  dsimp only
  repeat' split
  all_goals
    exact ⟨_, rfl, rfl, by simp [Ai.errResult, jsonResponse], by simp [Ai.errResult, jsonResponse]⟩

lemma goodShape_ai_handleMultipart (form : FormData') (env : Env') (up : Upstream)
    (rng : ℚ) : goodShape (Ai.handleMultipart form env up rng) := by
  unfold Ai.handleMultipart
  dsimp only
  repeat' split
  · exact ⟨_, rfl, rfl, by simp [Ai.errResult, jsonResponse], by simp [Ai.errResult, jsonResponse]⟩
  · exact goodShape_ai_startImageToVideoJob ..
  · exact ⟨_, rfl, rfl, by simp [Ai.errResult, jsonResponse], by simp [Ai.errResult, jsonResponse]⟩

lemma goodShape_ai_handleJson (body : JsonBody) (env : Env') (up : Upstream)
    (rng : ℚ) : goodShape (Ai.handleJson body env up rng) := by
  unfold Ai.handleJson Ai.handleGenerateImage Ai.handleStartVideoFromUrl Ai.handleStatus
    goodShape
  dsimp only
  repeat' split
  any_goals
    exact ⟨_, rfl, rfl, by simp [Ai.errResult, jsonResponse], by simp [Ai.errResult, jsonResponse]⟩
  all_goals exact goodShape_ai_startImageToVideoJob ..

/-- Every response `functions/ai.js` produces for a `POST` request with the
credential configured is JSON with the `jsonResponse` headers; its
failures carry an error message and HTTP 500 and its successes HTTP 200. -/
lemma ai_post_goodShape (req : Request') (env : Env') (up : Upstream) (rng : ℚ)
    (hm : req.method = "POST") (hk : jsTruthyStr env.apiKey = true) :
    goodShape (Ai.onRequest req env up rng) := by
  unfold Ai.onRequest
  rw [hm]
  rw [if_neg (by decide), if_neg (by decide), if_neg (by simp [hk])]
  split
  · exact goodShape_ai_handleMultipart ..
  split
  · exact goodShape_ai_handleJson ..
  · exact ⟨_, rfl, rfl, by simp [Ai.errResult, jsonResponse], by simp [Ai.errResult, jsonResponse]⟩

lemma goodShape_part000_handleMultipart (form : FormData') (env : Env') (up : Upstream)
    (rng : ℚ) : goodShape (Part000.handleMultipart form env up rng) := by
  unfold Part000.handleMultipart goodShape
  dsimp only
  repeat' split
  all_goals
    exact ⟨_, rfl, rfl, by simp [Part000.errResult, jsonResponse],
      by simp [Part000.errResult, jsonResponse]⟩

lemma envelopeShape_part000_handleJson (body : JsonBody) (up : Upstream) :
    envelopeShape (Part000.handleJson body up) := by
  unfold Part000.handleJson Part000.handleStatus envelopeShape
  dsimp only
  repeat' split
  all_goals
    exact ⟨_, rfl, rfl, by simp [Part000.errResult, jsonResponse]⟩

/-- Envelope shape for the unnamed handler variant. Its HTTP statuses are
not uniform: the empty-output `FAILED` payload is served with the
`jsonResponse` default 200, so only the weaker `envelopeShape` holds. -/
lemma part000_post_envelopeShape (req : Request') (env : Env') (up : Upstream) (rng : ℚ)
    (hm : req.method = "POST") (hk : jsTruthyStr env.apiKey = true) :
    envelopeShape (Part000.onRequest req env up rng) := by
  unfold Part000.onRequest
  rw [hm]
  rw [if_neg (by decide), if_neg (by decide), if_neg (by simp [hk])]
  split
  · exact goodShape_envelope _ (goodShape_part000_handleMultipart ..)
  split
  · exact envelopeShape_part000_handleJson ..
  · exact ⟨_, rfl, rfl, by simp [Part000.errResult, jsonResponse]⟩

/-- Dispatch of `functions/ai.js` for a JSON `POST` with the key set. -/
lemma ai_dispatch_json (req : Request') (env : Env') (up : Upstream) (rng : ℚ)
    (hm : req.method = "POST") (hk : jsTruthyStr env.apiKey = true)
    (hmp : strContains req.contentType "multipart/form-data" = false)
    (hj : strContains req.contentType "application/json" = true) :
    Ai.onRequest req env up rng = Ai.handleJson req.jsonBody env up rng := by
  unfold Ai.onRequest
  rw [hm]
  rw [if_neg (by decide), if_neg (by decide), if_neg (by simp [hk]),
    if_neg (by simp [hmp]), if_pos (by simp [hj])]

/-- Dispatch of `functions/ai.js` for a multipart `POST` with the key set. -/
lemma ai_dispatch_multipart (req : Request') (env : Env') (up : Upstream) (rng : ℚ)
    (hm : req.method = "POST") (hk : jsTruthyStr env.apiKey = true)
    (hmp : strContains req.contentType "multipart/form-data" = true) :
    Ai.onRequest req env up rng = Ai.handleMultipart req.form env up rng := by
  unfold Ai.onRequest
  rw [hm]
  rw [if_neg (by decide), if_neg (by decide), if_neg (by simp [hk]), if_pos (by simp [hmp])]

/-- Dispatch of the unnamed variant for a JSON `POST` with the key set. -/
lemma part000_dispatch_json (req : Request') (env : Env') (up : Upstream) (rng : ℚ)
    (hm : req.method = "POST") (hk : jsTruthyStr env.apiKey = true)
    (hmp : strContains req.contentType "multipart/form-data" = false)
    (hj : strContains req.contentType "application/json" = true) :
    Part000.onRequest req env up rng = Part000.handleJson req.jsonBody up := by
  unfold Part000.onRequest
  rw [hm]
  rw [if_neg (by decide), if_neg (by decide), if_neg (by simp [hk]),
    if_neg (by simp [hmp]), if_pos (by simp [hj])]

namespace App

lemma tick_inactive (s : PollState) (d : StatusData) (h : s.timerActive = false) :
    tick s d = s := by
  unfold tick
  rw [if_pos (by simp [h])]

lemma runPoll_inactive (ds : List StatusData) (s : PollState)
    (h : s.timerActive = false) : runPoll ds s = s := by
  induction ds with
  | nil => rfl
  | cons d ds ih =>
    show runPoll ds (tick s d) = s
    rw [tick_inactive s d h, ih]

lemma tick_nonTerminal (s : PollState) (d : StatusData) (hA : s.timerActive = true)
    (h : nonTerminal d) :
    tick s d = { s with requests := s.requests + 1, progressPct := pctOf d } := by
  obtain ⟨hok, hsu, hs1, hs2⟩ := h
  unfold tick
  rw [if_neg (by simp [hA])]
  dsimp only
  rw [if_neg (by simp [hok, hsu]), if_neg (by simp [hs1]), if_neg (by simp [hs2])]

lemma tick_success (s : PollState) (d : StatusData) (hA : s.timerActive = true)
    (hok : d.ok = true) (hsu : d.success = true) (hst : d.status = some "SUCCEEDED")
    (hurl : jsTruthyStr d.imageUrl = true) :
    tick s d =
      { s with
        requests := s.requests + 1
        progressPct := pctOf d
        timerActive := false
        modifiedImageUrl := d.imageUrl
        isGenerating := false } := by
  unfold tick
  rw [if_neg (by simp [hA])]
  dsimp only
  rw [if_neg (by simp [hok, hsu]), if_pos (by simp [hst]), if_pos (by simp [hurl])]

end App


/-- Claim C8 (counterexample): the seed `Math.floor(Math.random() *
4294967295)` can never equal 4294967295, so not every integer of the
32-bit unsigned range `[0, 4294967295]` is a possible seed value; the
claim's quantitative content is false. -/
theorem seed_never_attains_top_value :
    ¬ ∃ r : ℚ, 0 ≤ r ∧ r < 1 ∧ seedOf r = 4294967295 := by
  rintro ⟨r, _h0, h1, he⟩
  have hle := Int.floor_le (r * (4294967295 : ℚ))
  rw [seedOf] at he
  rw [he] at hle
  push_cast at hle
  linarith

/-- Claim C8 (amended): the seed is `⌊r * 4294967295⌋` for the random
draw `r ∈ [0, 1)`; it always lies in `[0, 4294967294]` and every integer
of that interval — but not 4294967295 — is a possible value. -/
theorem seed_range_and_attainability (r : ℚ) (h0 : 0 ≤ r) (h1 : r < 1) (n : ℤ)
    (hn0 : 0 ≤ n) (hn : n ≤ 4294967294) :
    (0 ≤ seedOf r ∧ seedOf r ≤ 4294967294) ∧
      ∃ q : ℚ, 0 ≤ q ∧ q < 1 ∧ seedOf q = n := by
  refine ⟨⟨?_, ?_⟩, ?_⟩
  · refine Int.le_floor.mpr ?_
    push_cast
    exact mul_nonneg h0 (by norm_num)
  · have hlt : seedOf r < 4294967295 := by
      refine Int.floor_lt.mpr ?_
      push_cast
      linarith
    omega
  · refine ⟨(n : ℚ) / 4294967295, ?_, ?_, ?_⟩
    · exact div_nonneg (by exact_mod_cast hn0) (by norm_num)
    · rw [div_lt_one (by norm_num)]
      exact_mod_cast lt_of_le_of_lt hn (by norm_num)
    · rw [seedOf, div_mul_cancel₀ _ (by norm_num : (4294967295 : ℚ) ≠ 0)]
      exact_mod_cast Int.floor_intCast n

/-- Claim C8 witness: instantiation at `r = 1/2`, `n = 4294967294`. -/
theorem seed_range_and_attainability_witness :
    (0 ≤ (1 / 2 : ℚ) ∧ (1 / 2 : ℚ) < 1 ∧ (0 : ℤ) ≤ 4294967294) ∧
      ((0 ≤ seedOf (1 / 2) ∧ seedOf (1 / 2) ≤ 4294967294) ∧
        ∃ q : ℚ, 0 ≤ q ∧ q < 1 ∧ seedOf q = 4294967294) :=
  ⟨⟨by norm_num, by norm_num, by norm_num⟩,
    seed_range_and_attainability (1 / 2) (by norm_num) (by norm_num) 4294967294
      (by norm_num) (by norm_num)⟩

/-- Claim C7: a polling run whose first three responses are non-terminal
and whose fourth is terminal-success with a result URL issues exactly four
status requests, ends with the URL exposed, generation finished and no
error, and the timer stopped — so no later tick (the `rest` of the run)
issues any request. -/
theorem poll_three_nonterminal_then_success (d1 d2 d3 d4 : App.StatusData)
    (rest : List App.StatusData) (url : String)
    (h1 : App.nonTerminal d1) (h2 : App.nonTerminal d2) (h3 : App.nonTerminal d3)
    (hok : d4.ok = true) (hsu : d4.success = true) (hst : d4.status = some "SUCCEEDED")
    (hurl : d4.imageUrl = some url) (hne : url ≠ "") :
    (App.runPoll (d1 :: d2 :: d3 :: d4 :: rest) App.initialPollState).requests = 4 ∧
    (App.runPoll (d1 :: d2 :: d3 :: d4 :: rest) App.initialPollState).modifiedImageUrl = some url ∧
    (App.runPoll (d1 :: d2 :: d3 :: d4 :: rest) App.initialPollState).timerActive = false ∧
    (App.runPoll (d1 :: d2 :: d3 :: d4 :: rest) App.initialPollState).isGenerating = false ∧
    (App.runPoll (d1 :: d2 :: d3 :: d4 :: rest) App.initialPollState).errorMsg = none := by
  have hstep : App.runPoll (d1 :: d2 :: d3 :: d4 :: rest) App.initialPollState =
      App.runPoll rest
        (App.tick (App.tick (App.tick (App.tick App.initialPollState d1) d2) d3) d4) := rfl
  rw [hstep]
  rw [App.tick_nonTerminal _ _ rfl h1]
  rw [App.tick_nonTerminal _ _ rfl h2]
  rw [App.tick_nonTerminal _ _ rfl h3]
  rw [App.tick_success _ _ rfl hok hsu hst (by simp [jsTruthyStr, hurl, hne])]
  rw [App.runPoll_inactive _ _ rfl]
  exact ⟨rfl, hurl, rfl, rfl, rfl⟩

/-- Claim C7 witness: three `RUNNING` responses, then `SUCCEEDED` with a
URL, with one more response available that is never requested. -/
theorem poll_three_nonterminal_then_success_witness :
    App.nonTerminal
      { ok := true, success := true, status := some "RUNNING", progress := some (1 / 2),
        imageUrl := none, error := none, failureReason := none } ∧
    (App.runPoll
      [{ ok := true, success := true, status := some "RUNNING", progress := some (1 / 2),
         imageUrl := none, error := none, failureReason := none },
       { ok := true, success := true, status := some "RUNNING", progress := some (1 / 2),
         imageUrl := none, error := none, failureReason := none },
       { ok := true, success := true, status := some "RUNNING", progress := some (1 / 2),
         imageUrl := none, error := none, failureReason := none },
       { ok := true, success := true, status := some "SUCCEEDED", progress := some 1,
         imageUrl := some "https://x/y.png", error := none, failureReason := none },
       { ok := true, success := true, status := some "RUNNING", progress := some (1 / 2),
         imageUrl := none, error := none, failureReason := none }]
      App.initialPollState).requests = 4 := by
  constructor
  · exact ⟨rfl, rfl, by decide, by decide⟩
  · exact (poll_three_nonterminal_then_success _ _ _ _ _ "https://x/y.png"
      ⟨rfl, rfl, by decide, by decide⟩ ⟨rfl, rfl, by decide, by decide⟩
      ⟨rfl, rfl, by decide, by decide⟩ rfl rfl rfl rfl (by decide)).1

/-- Claim C10: both handlers answer `OPTIONS` with the preflight response
(no body, `Access-Control-Allow-Methods: POST, OPTIONS`) whatever the
environment — in particular with the credential absent — and the
missing-credential error response can only arise from a `POST` request. -/
theorem options_preflight_and_missing_key_only_post (req : Request') (env : Env')
    (up : Upstream) (rng : ℚ) :
    (req.method = "OPTIONS" →
      (Ai.onRequest req env up rng).resp = preflightResp ∧
      (Part000.onRequest req env up rng).resp = preflightResp) ∧
    ((Ai.onRequest req env up rng).resp = Ai.missingKeyResp → req.method = "POST") ∧
    ((Part000.onRequest req env up rng).resp = Part000.missingKeyResp →
      req.method = "POST") := by
  refine ⟨fun ho => ?_, fun hr => ?_, fun hr => ?_⟩
  · constructor
    · unfold Ai.onRequest
      rw [if_pos ho]
    · unfold Part000.onRequest
      rw [if_pos ho]
  · by_cases h1 : req.method = "OPTIONS"
    · exfalso
      unfold Ai.onRequest at hr
      rw [if_pos h1] at hr
      exact absurd hr (by decide)
    · by_cases h2 : req.method = "POST"
      · exact h2
      · exfalso
        unfold Ai.onRequest at hr
        rw [if_neg h1, if_pos h2] at hr
        exact absurd hr (by decide)
  · by_cases h1 : req.method = "OPTIONS"
    · exfalso
      unfold Part000.onRequest at hr
      rw [if_pos h1] at hr
      exact absurd hr (by decide)
    · by_cases h2 : req.method = "POST"
      · exact h2
      · exfalso
        unfold Part000.onRequest at hr
        rw [if_neg h1, if_pos h2] at hr
        exact absurd hr (by decide)

/-- Claim C10 witness: an `OPTIONS` request with no credential configured
gets the preflight response from both handlers, and a `POST` request with
no credential gets exactly the missing-credential response from
`functions/ai.js`. -/
theorem options_preflight_and_missing_key_only_post_witness :
    ((Ai.onRequest { statusReq "task-1" with method := "OPTIONS" }
        { apiKey := none, kv := none } (upWith (tasksSucceeded none [])) 0).resp = preflightResp ∧
      (Part000.onRequest { statusReq "task-1" with method := "OPTIONS" }
        { apiKey := none, kv := none } (upWith (tasksSucceeded none [])) 0).resp = preflightResp) ∧
    "POST" = "POST" := by
  constructor
  · exact (options_preflight_and_missing_key_only_post _ _ _ _).1 rfl
  · exact (options_preflight_and_missing_key_only_post (statusReq "task-1")
      { apiKey := none, kv := none } (upWith (tasksSucceeded none [])) 0).2.1 (by decide)


/-- Claim C1 (counterexample): for a `status` poll that returns `SUCCEEDED`
with an empty output array, `functions/ai.js` does not return the
`{success:false, status:'FAILED', ...}` payload: it falls through to the
non-terminal progress payload `{success:true, status:'SUCCEEDED',
progress}`. -/
theorem ai_status_succeeded_empty_output_progress_payload :
    (Ai.onRequest (statusReq "task-1") (envKV [])
        (upWith (tasksSucceeded (some (1 / 2)) [])) 0).resp =
      jsonResponse
        { success := true
          status := some "SUCCEEDED"
          progress := some (1 / 2) } 200 ∧
    (Ai.onRequest (statusReq "task-1") (envKV [])
        (upWith (tasksSucceeded (some (1 / 2)) [])) 0).resp.body ≠
      RespBody.json
        { success := false
          status := some "FAILED"
          error := some "Task succeeded but output was empty." } := by
  exact ⟨rfl, by decide⟩

/-- Claim C1 (amended): on a `SUCCEEDED` poll with an empty output array,
the unnamed handler variant returns `{success:false, status:'FAILED',
error:'Task succeeded but output was empty.'}`, while `functions/ai.js`
instead returns the progress payload `{success:true, status:'SUCCEEDED',
progress}`. -/
theorem status_succeeded_empty_output_two_handlers
    (req : Request') (env : Env') (up : Upstream) (rng : ℚ)
    (hm : req.method = "POST") (hk : jsTruthyStr env.apiKey = true)
    (hmp : strContains req.contentType "multipart/form-data" = false)
    (hj : strContains req.contentType "application/json" = true)
    (ha : req.jsonBody.action = some "status")
    (ht : jsTruthyStr req.jsonBody.taskId = true)
    (hok : up.tasks.ok = true)
    (hst : up.tasks.status = some "SUCCEEDED")
    (hout : up.tasks.output = []) :
    (Part000.onRequest req env up rng).resp =
      jsonResponse
        { success := false
          status := some "FAILED"
          error := some "Task succeeded but output was empty." } 200 ∧
    (Ai.onRequest req env up rng).resp =
      jsonResponse
        { success := true
          status := some "SUCCEEDED"
          progress := up.tasks.progress } 200 := by
  constructor
  · rw [part000_dispatch_json req env up rng hm hk hmp hj]
    simp [Part000.handleJson, Part000.handleStatus, ha, ht, hok, hst, hout]
  · rw [ai_dispatch_json req env up rng hm hk hmp hj]
    simp [Ai.handleJson, Ai.handleStatus, ha, ht, hok, hst, hout]

/-- Claim C1 witness: concrete poll of task `task-1`. -/
theorem status_succeeded_empty_output_two_handlers_witness :
    (Part000.onRequest (statusReq "task-1") (envKV [])
        (upWith (tasksSucceeded (some (1 / 2)) [])) 0).resp =
      jsonResponse
        { success := false
          status := some "FAILED"
          error := some "Task succeeded but output was empty." } 200 ∧
    (Ai.onRequest (statusReq "task-1") (envKV [])
        (upWith (tasksSucceeded (some (1 / 2)) [])) 0).resp =
      jsonResponse
        { success := true
          status := some "SUCCEEDED"
          progress := some (1 / 2) } 200 :=
  status_succeeded_empty_output_two_handlers (statusReq "task-1") (envKV [])
    (upWith (tasksSucceeded (some (1 / 2)) [])) 0 rfl rfl (by decide) (by decide)
    rfl (by decide) rfl rfl rfl

/-- Claim C2: on a `SUCCEEDED` poll with an output URL, when no metadata
record exists for the task id — the KV store unbound, or bound but
holding no record under that id — `functions/ai.js` falls back to kind
`video` and returns the URL as `videoUrl` in a success payload, never
erroring. -/
theorem ai_status_absent_record_defaults_videoUrl
    (req : Request') (env : Env') (up : Upstream) (rng : ℚ)
    (hm : req.method = "POST") (hk : jsTruthyStr env.apiKey = true)
    (hmp : strContains req.contentType "multipart/form-data" = false)
    (hj : strContains req.contentType "application/json" = true)
    (ha : req.jsonBody.action = some "status")
    (ht : jsTruthyStr req.jsonBody.taskId = true)
    (hok : up.tasks.ok = true)
    (hst : up.tasks.status = some "SUCCEEDED")
    (url : String) (hu : up.tasks.output.head? = some url) (hne : url ≠ "")
    (habs : ∀ kv, env.kv = some kv → kvGet kv (jsOrStr req.jsonBody.taskId "") = none) :
    (Ai.onRequest req env up rng).resp =
      jsonResponse
        { success := true
          status := some "SUCCEEDED"
          progress := up.tasks.progress
          videoUrl := some url } 200 := by
  rw [ai_dispatch_json req env up rng hm hk hmp hj]
  rcases hkv : env.kv with _ | kv
  · simp [Ai.handleJson, Ai.handleStatus, ha, ht, hok, hst, hu, hkv,
      jsTruthyStr_some_of_ne url hne]
  · have hrec := habs kv hkv
    simp [Ai.handleJson, Ai.handleStatus, ha, ht, hok, hst, hu, hkv, hrec,
      jsTruthyStr_some_of_ne url hne]

/-- Claim C2 witness: bound but empty KV store. -/
theorem ai_status_absent_record_defaults_videoUrl_witness :
    (Ai.onRequest (statusReq "task-1") (envKV [])
        (upWith (tasksSucceeded (some 1) ["https://x/y.png"])) 0).resp =
      jsonResponse
        { success := true
          status := some "SUCCEEDED"
          progress := some 1
          videoUrl := some "https://x/y.png" } 200 :=
  ai_status_absent_record_defaults_videoUrl (statusReq "task-1") (envKV [])
    (upWith (tasksSucceeded (some 1) ["https://x/y.png"])) 0 rfl rfl (by decide)
    (by decide) rfl (by decide) rfl rfl "https://x/y.png" rfl (by decide)
    (by intro kv hkv; cases hkv; rfl)

/-- Claim C5 (counterexample): the handler echoes the upstream-reported
progress rather than the literal 1 the claim fixes: polling a `SUCCEEDED`
task with stored kind `image`, output `["https://x/y.png"]` and upstream
progress 1/2 returns `progress = 1/2`, not the claimed `progress = 1`. -/
theorem ai_status_succeeded_image_progress_echoes_upstream :
    (Ai.onRequest (statusReq "task-1") (envKV [("task-1", { type := some "image" })])
        (upWith (tasksSucceeded (some (1 / 2)) ["https://x/y.png"])) 0).resp =
      jsonResponse
        { success := true
          status := some "SUCCEEDED"
          progress := some (1 / 2)
          imageUrl := some "https://x/y.png" } 200 ∧
    (1 : ℚ) / 2 ≠ 1 ∧
    ({ success := true, status := some "SUCCEEDED", progress := some (1 / 2),
        imageUrl := some "https://x/y.png" } : Payload) ≠
      { success := true, status := some "SUCCEEDED", progress := some 1,
        imageUrl := some "https://x/y.png" } := by
  refine ⟨rfl, by norm_num, fun h => ?_⟩
  have hp := congrArg Payload.progress h
  simp only [Option.some.injEq] at hp
  norm_num at hp

/-- Claim C5 (amended): on a `SUCCEEDED` poll with output URL `url` and a
stored metadata record of kind `image` for the task id, `functions/ai.js`
returns `{success:true, status:'SUCCEEDED', progress: p, imageUrl: url}`
where `p` is the progress reported by the upstream poll (so 1 exactly when
the upstream reports 1), and schedules deletion of the metadata record via
`waitUntil` — without blocking the response. -/
theorem ai_status_succeeded_image_result
    (req : Request') (env : Env') (up : Upstream) (rng : ℚ)
    (hm : req.method = "POST") (hk : jsTruthyStr env.apiKey = true)
    (hmp : strContains req.contentType "multipart/form-data" = false)
    (hj : strContains req.contentType "application/json" = true)
    (ha : req.jsonBody.action = some "status")
    (tid : String) (htid : req.jsonBody.taskId = some tid) (htne : tid ≠ "")
    (hok : up.tasks.ok = true)
    (hst : up.tasks.status = some "SUCCEEDED")
    (url : String) (hu : up.tasks.output.head? = some url) (hne : url ≠ "")
    (kv : List (String × TaskInfo)) (hkv : env.kv = some kv)
    (hrec : kvGet kv tid = some { type := some "image" }) :
    (Ai.onRequest req env up rng).resp =
      jsonResponse
        { success := true
          status := some "SUCCEEDED"
          progress := up.tasks.progress
          imageUrl := some url } 200 ∧
    (Ai.onRequest req env up rng).deferredDeletes = [tid] := by
  rw [ai_dispatch_json req env up rng hm hk hmp hj]
  constructor
  · simp [Ai.handleJson, Ai.handleStatus, ha, htid, hok, hst, hu, hkv, hrec,
      jsOrStr, htne, jsTruthyStr_some_of_ne url hne, jsTruthyStr_some_of_ne tid htne]
  · simp [Ai.handleJson, Ai.handleStatus, ha, htid, hok, hst, hu, hkv, hrec,
      jsOrStr, htne, jsTruthyStr_some_of_ne url hne, jsTruthyStr_some_of_ne tid htne]

/-- Claim C5 witness: upstream progress 1 reproduces the payload of the
spec's test scenario, and the record's deletion is scheduled. -/
theorem ai_status_succeeded_image_result_witness :
    (Ai.onRequest (statusReq "task-1") (envKV [("task-1", { type := some "image" })])
        (upWith (tasksSucceeded (some 1) ["https://x/y.png"])) 0).resp =
      jsonResponse
        { success := true
          status := some "SUCCEEDED"
          progress := some 1
          imageUrl := some "https://x/y.png" } 200 ∧
    (Ai.onRequest (statusReq "task-1") (envKV [("task-1", { type := some "image" })])
        (upWith (tasksSucceeded (some 1) ["https://x/y.png"])) 0).deferredDeletes =
      ["task-1"] :=
  ai_status_succeeded_image_result (statusReq "task-1")
    (envKV [("task-1", { type := some "image" })])
    (upWith (tasksSucceeded (some 1) ["https://x/y.png"])) 0 rfl rfl (by decide)
    (by decide) rfl "task-1" rfl (by decide) rfl rfl "https://x/y.png" rfl
    (by decide) [("task-1", { type := some "image" })] rfl rfl

/-- Claim C6: a valid `generateImage` submission whose upstream call
succeeds yields `{success:true, taskId}` with the upstream-issued id, and
a `{type:'image'}` record is stored under that id exactly when the KV
store is configured. -/
theorem ai_generateImage_success
    (req : Request') (env : Env') (up : Upstream) (rng : ℚ)
    (hm : req.method = "POST") (hk : jsTruthyStr env.apiKey = true)
    (hmp : strContains req.contentType "multipart/form-data" = false)
    (hj : strContains req.contentType "application/json" = true)
    (ha : req.jsonBody.action = some "generateImage")
    (hp : jsTruthyStr req.jsonBody.prompt = true)
    (hok : up.t2i.ok = true) :
    (Ai.onRequest req env up rng).resp =
      jsonResponse
        { success := true
          taskId := some up.t2i.id } 200 ∧
    (∀ kv, env.kv = some kv →
      (Ai.onRequest req env up rng).kvPuts = [(up.t2i.id, { type := some "image" })]) ∧
    (env.kv = none → (Ai.onRequest req env up rng).kvPuts = []) := by
  rw [ai_dispatch_json req env up rng hm hk hmp hj]
  refine ⟨?_, fun kv hkv => ?_, fun hkv => ?_⟩
  · simp [Ai.handleJson, Ai.handleGenerateImage, ha, hp, hok]
  · simp [Ai.handleJson, Ai.handleGenerateImage, ha, hp, hok, hkv]
  · simp [Ai.handleJson, Ai.handleGenerateImage, ha, hp, hok, hkv]

/-- Claim C6 witness: concrete `generateImage` submission with the KV
store bound and upstream issuing id `task-1`. -/
theorem ai_generateImage_success_witness :
    (Ai.onRequest
        { method := "POST", contentType := "application/json", form := formNone,
          jsonBody :=
            { action := some "generateImage", prompt := some "a cat", ratio := none,
              videoPrompt := none, imageUrl := none, duration := none, taskId := none } }
        (envKV []) (upWith (tasksSucceeded none [])) 0).resp =
      jsonResponse
        { success := true
          taskId := some "task-1" } 200 ∧
    (Ai.onRequest
        { method := "POST", contentType := "application/json", form := formNone,
          jsonBody :=
            { action := some "generateImage", prompt := some "a cat", ratio := none,
              videoPrompt := none, imageUrl := none, duration := none, taskId := none } }
        (envKV []) (upWith (tasksSucceeded none [])) 0).kvPuts =
      [("task-1", { type := some "image" })] :=
  ⟨(ai_generateImage_success _ (envKV []) (upWith (tasksSucceeded none [])) 0 rfl rfl
      (by decide) (by decide) rfl (by decide) rfl).1,
    (ai_generateImage_success _ (envKV []) (upWith (tasksSucceeded none [])) 0 rfl rfl
      (by decide) (by decide) rfl (by decide) rfl).2.1 [] rfl⟩

lemma rejectedNoCall_errResult (msg : String) :
    rejectedNoCall (Ai.errResult [] msg) :=
  ⟨rfl, _, rfl, rfl, rfl⟩

/-- Claim C4: every malformed submission is rejected with `success:false`
and, in particular, no upstream submit call (`text_to_image` or
`image_to_video`) — indeed no upstream call at all — is made. -/
theorem ai_malformed_submission_rejected
    (req : Request') (env : Env') (up : Upstream) (rng : ℚ)
    (hm : req.method = "POST") (hk : jsTruthyStr env.apiKey = true)
    (hmal : malformedSubmission req) :
    rejectedNoCall (Ai.onRequest req env up rng) := by
  rcases hmal with ⟨hmp, hbad⟩ | ⟨hmp, hj, hbad⟩
  · rw [ai_dispatch_multipart req env up rng hm hk hmp]
    rcases hbad with hp | hi
    · rcases hpc : req.form.prompt with _ | s
      · have he : Ai.handleMultipart req.form env up rng =
            Ai.errResult [] "Request is missing prompt or image file." := by
          simp [Ai.handleMultipart, hpc]
        rw [he]
        exact rejectedNoCall_errResult _
      · have hs : s = "" := by
          rw [hpc] at hp
          simpa [jsTruthyStr] using hp
        rcases hic : req.form.image with _ | f
        all_goals
          have he : Ai.handleMultipart req.form env up rng =
              Ai.errResult [] "Request is missing prompt or image file." := by
            simp [Ai.handleMultipart, hpc, hic, hs]
        all_goals rw [he]; exact rejectedNoCall_errResult _
    · rcases hpc : req.form.prompt with _ | s
      all_goals
        have he : Ai.handleMultipart req.form env up rng =
            Ai.errResult [] "Request is missing prompt or image file." := by
          simp [Ai.handleMultipart, hpc, hi]
      all_goals rw [he]; exact rejectedNoCall_errResult _
  · rw [ai_dispatch_json req env up rng hm hk hmp hj]
    rcases hbad with ⟨ha, hp⟩ | ⟨ha, hbad2⟩
    · have he : Ai.handleJson req.jsonBody env up rng =
          Ai.errResult [] "Image prompt is missing." := by
        simp [Ai.handleJson, Ai.handleGenerateImage, ha, hp]
      rw [he]
      exact rejectedNoCall_errResult _
    · have he : Ai.handleJson req.jsonBody env up rng =
          Ai.errResult [] "Missing video prompt or image URL." := by
        rcases hbad2 with hv | hi
        · simp [Ai.handleJson, Ai.handleStartVideoFromUrl, ha, hv]
        · simp [Ai.handleJson, Ai.handleStartVideoFromUrl, ha, hi]
      rw [he]
      exact rejectedNoCall_errResult _

/-- Claim C4 witness: a multipart upload with no prompt and no image. -/
theorem ai_malformed_submission_rejected_witness :
    malformedSubmission
      { method := "POST", contentType := "multipart/form-data", form := formNone,
        jsonBody := emptyJsonBody } ∧
    rejectedNoCall (Ai.onRequest
      { method := "POST", contentType := "multipart/form-data", form := formNone,
        jsonBody := emptyJsonBody } (envKV []) (upWith (tasksSucceeded none [])) 0) :=
  ⟨Or.inl ⟨by decide, Or.inl rfl⟩,
    ai_malformed_submission_rejected _ (envKV []) (upWith (tasksSucceeded none [])) 0
      rfl rfl (Or.inl ⟨by decide, Or.inl rfl⟩)⟩

/-- Claim C9: for a well-formed multipart submission, the duration the
image-to-video call receives is `parseInt(duration || '5', 10)`: when the
`duration` field is present and non-empty it is `jsParseInt` of the raw
value — `none` (JS `NaN`) whenever that value has no parseable leading
integer, with no substitution of the documented default 5 — and the
default `some 5` applies exactly when the field is absent or empty. -/
theorem ai_multipart_duration_forwarding
    (req : Request') (env : Env') (up : Upstream) (rng : ℚ)
    (hm : req.method = "POST") (hk : jsTruthyStr env.apiKey = true)
    (hmp : strContains req.contentType "multipart/form-data" = true)
    (p : String) (hp : req.form.prompt = some p) (hpne : p ≠ "")
    (f : File') (hf : req.form.image = some f) :
    (Ai.onRequest req env up rng).calls =
      [UpstreamCall.image_to_video "gen4_turbo" p
        ("data:" ++ f.mime ++ ";base64," ++ btoa f.bytes)
        (seedOf rng) false (jsParseInt (jsOrStr req.form.duration "5"))
        (jsOrStr req.form.ratio "1280:720")] ∧
    (∀ d, req.form.duration = some d → d ≠ "" →
      jsParseInt (jsOrStr req.form.duration "5") = jsParseInt d) ∧
    ((req.form.duration = none ∨ req.form.duration = some "") →
      jsParseInt (jsOrStr req.form.duration "5") = some 5) := by
  refine ⟨?_, fun d hd hdne => ?_, ?_⟩
  · rw [ai_dispatch_multipart req env up rng hm hk hmp]
    simp only [Ai.handleMultipart, hp, hf]
    rw [if_neg hpne]
    unfold Ai.startImageToVideoJob
    dsimp only
    split
    · rfl
    · rfl
  · rw [hd, jsOrStr_some_of_ne d "5" hdne]
  · rintro (hd | hd) <;> rw [hd] <;> rfl

/-- Claim C9 witness: a `duration` field holding `"abc"` is forwarded as
`jsParseInt "abc" = none` (JS `NaN`), not as the default 5. -/
theorem ai_multipart_duration_forwarding_witness :
    (Ai.onRequest
        { method := "POST", contentType := "multipart/form-data",
          form :=
            { prompt := some "p"
              image := some { name := "i.png", mime := "image/png", bytes := [1, 2, 3] }
              duration := some "abc"
              ratio := none },
          jsonBody := emptyJsonBody }
        (envKV []) (upWith (tasksSucceeded none [])) 0).calls =
      [UpstreamCall.image_to_video "gen4_turbo" "p" "data:image/png;base64,AQID"
        (seedOf 0) false none "1280:720"] ∧
    jsParseInt "abc" = none ∧ ("abc" : String) ≠ "" :=
  ⟨(ai_multipart_duration_forwarding _ (envKV []) (upWith (tasksSucceeded none [])) 0
      rfl rfl (by decide) "p" rfl (by decide)
      { name := "i.png", mime := "image/png", bytes := [1, 2, 3] } rfl).1,
    rfl, by decide⟩

/-- Claim C3 (counterexample): a `GET` request is answered with the
plain-text 405 response: no JSON body, no permissive cross-origin header,
no `{success:false, error}` envelope and no HTTP 500. -/
theorem ai_get_request_plain_text_no_cors :
    (Ai.onRequest { statusReq "task-1" with method := "GET" } (envKV [])
        (upWith (tasksSucceeded none [])) 0).resp = methodNotAllowedResp ∧
    methodNotAllowedResp.headers = [] ∧
    methodNotAllowedResp.body = RespBody.text "Method not allowed" ∧
    methodNotAllowedResp.status = 405 := by
  decide

/-- Claim C3 (amended): for every `POST` request with the credential
configured, both handlers answer JSON carrying the `jsonResponse` headers
(`Content-Type: application/json`, `Access-Control-Allow-Origin: *`), and
every failure body is `{success:false, error: message}`; in
`functions/ai.js` failures additionally always carry HTTP 500 (and
successes 200). The `OPTIONS` preflight (no body), the plain-text 405 for
other methods, the header-less missing-credential response of
`functions/ai.js`, and the unnamed variant's empty-output `FAILED`
payload (served with HTTP 200) are the exceptions to the original
claim. -/
theorem post_responses_uniform_json_envelope
    (req : Request') (env : Env') (up : Upstream) (rng : ℚ)
    (hm : req.method = "POST") (hk : jsTruthyStr env.apiKey = true) :
    goodShape (Ai.onRequest req env up rng) ∧
    envelopeShape (Part000.onRequest req env up rng) :=
  ⟨ai_post_goodShape req env up rng hm hk,
    part000_post_envelopeShape req env up rng hm hk⟩

/-- Claim C3 witness: a malformed JSON `POST` (empty body) has the
envelope shape in both handlers. -/
theorem post_responses_uniform_json_envelope_witness :
    goodShape (Ai.onRequest
      { method := "POST", contentType := "application/json", form := formNone,
        jsonBody := emptyJsonBody } (envKV []) (upWith (tasksSucceeded none [])) 0) ∧
    envelopeShape (Part000.onRequest
      { method := "POST", contentType := "application/json", form := formNone,
        jsonBody := emptyJsonBody } (envKV []) (upWith (tasksSucceeded none [])) 0) :=
  post_responses_uniform_json_envelope _ (envKV []) (upWith (tasksSucceeded none [])) 0
    rfl rfl
